import Mathlib

set_option maxHeartbeats 1000000

/-!
Shallow embedding of the greenhouse control-and-simulation program in
`src/app.py` (module `app`): the shared state dictionary, the PID
function `calcular_pid`, the body of one iteration of the `simular`
while-loop (control phase, physics phase, alarm phase), and the external
command handler `comando`.  Real numbers of the source are modelled as
exact rationals; the two `random.uniform` draws of a tick are explicit
parameters.  All definitions are computable.
-/

/-- Rounding function `round(x, 2)` of the source: rounding to two decimal places.
Modelled as half-up rounding on exact rationals; no concrete value used
in this development lies on a tie. -/
def round2 (x : ℚ) : ℚ := (⌊x * 100 + 1/2⌋ : ℚ) / 100

/-- Constant `DT = 1.0`, the fixed tick length in seconds. -/
def DT : ℚ := 1

/-- Constant `SETPOINT_TEMP = 25.0`. -/
def SETPOINT_TEMP : ℚ := 25

/-- Constant `Kp = 10.0`. -/
def Kp : ℚ := 10

/-- Constant `Ki = 0.2`. -/
def Ki : ℚ := 0.2

/-- Constant `Kd = 5.0`. -/
def Kd : ℚ := 5

/-- Constant `PWM_PERIOD / DT = 10`: the number of ticks in one PWM cycle.  The
source keeps `pwm_counter` as a float in `[0, 10)` holding integer
values; it is modelled as a natural number below 10. -/
def PWM_PERIOD_TICKS : ℕ := 10

/-- Constant `SOIL_LOW = 40.0`. -/
def SOIL_LOW : ℚ := 40

/-- Constant `SOIL_HIGH = 60.0`. -/
def SOIL_HIGH : ℚ := 60

/-- Constant `MAX_PUMP_SECONDS = 600`. -/
def MAX_PUMP_SECONDS : ℕ := 600

/-- Constant `PUMP_RATE = 0.6`. -/
def PUMP_RATE : ℚ := 0.6

/-- Constant `EVAP_BASE = 0.02`. -/
def EVAP_BASE : ℚ := 0.02

/-- Constant `AIR_DRYING_FACTOR = 0.005`. -/
def AIR_DRYING_FACTOR : ℚ := 0.005

/-- Constant `SOIL_EVAP_FACTOR = 0.005`. -/
def SOIL_EVAP_FACTOR : ℚ := 0.005

/-- Constant `SOIL_TO_AIR_TRANSFER = 0.4`. -/
def SOIL_TO_AIR_TRANSFER : ℚ := 0.4

/-- The whole mutable state of the program: the shared `state` dictionary
plus the module-level accumulators `pid_integral`, `pid_last_error` and
`pwm_counter`. -/
structure GState where
  temperatura : ℚ
  umidade : ℚ
  soil_moisture : ℚ
  aquecedor : Bool
  ventilador : Bool
  pump : Bool
  pump_run_seconds : ℕ
  modo_auto : Bool
  alarm : String
  pid_output : ℚ
  setpoint : ℚ
  pid_integral : ℚ
  pid_last_error : ℚ
  pwm_counter : ℕ
  deriving DecidableEq, Repr

/-- The initial contents of the `state` dictionary (source lines 18-30),
with the PID accumulators and PWM counter at their initial zeros. -/
def initState : GState :=
  { temperatura := 25
    umidade := 60
    soil_moisture := 50
    aquecedor := false
    ventilador := false
    pump := false
    pump_run_seconds := 0
    modo_auto := true
    alarm := ""
    pid_output := 0
    setpoint := 25
    pid_integral := 0
    pid_last_error := 0
    pwm_counter := 0 }

/-- Function `calcular_pid`, generalised over the tick length `dt` (the source
reads the module constant `DT`).  Input: the current temperature and the
persisted accumulator `pid_integral` and `pid_last_error`; output: the
returned control signal together with the updated accumulator and last
error, since the source mutates those globals in place. -/
def calcular_pid_dt (dt temp_atual integ lastErr : ℚ) : ℚ × ℚ × ℚ :=
  let erro := SETPOINT_TEMP - temp_atual
  let P := Kp * erro
  let integ1 := integ + erro * dt
  let integ2 := max (min integ1 50) (-50)
  let I := Ki * integ2
  let derivative := (erro - lastErr) / dt
  let D := Kd * derivative
  (P + I + D, integ2, erro)

/-- Function `calcular_pid` exactly as the source runs it, with `dt = DT`. -/
def calcular_pid (temp_atual integ lastErr : ℚ) : ℚ × ℚ × ℚ :=
  calcular_pid_dt DT temp_atual integ lastErr

/-- The PWM actuation of one tick (source lines 152-164): duty cycle from
the PID signal, leading-edge activity test, and heater-versus-fan
selection on the sign of the signal.  Returns the pair
`(aquecedor, ventilador)`. -/
def pwmApply (signal : ℚ) (counter : ℕ) : Bool × Bool :=
  let duty_cycle := min |signal| 100
  let is_active_cycle := decide ((counter : ℚ) * 10 < duty_cycle)
  if 0 < signal then (is_active_cycle, false) else (false, is_active_cycle)

/-- The raw (unclamped, unrounded) temperature value of one physics step
(source lines 181-190): heater or fan effect via `if`/`elif`, relaxation
toward 20 degrees, plus the noise draw. -/
def tempStepRaw (t : ℚ) (heater fan : Bool) (noise : ℚ) : ℚ :=
  let t1 := if heater then t + 0.5 * DT else if fan then t - 0.4 * DT else t
  let t2 := t1 - (t1 - 20) * 0.05 * DT
  t2 + noise * DT

/-- The stored temperature of one physics step (source line 192): the raw
value clamped to `[0, 60]` and rounded to two decimals. -/
def tempStep (t : ℚ) (heater fan : Bool) (noise : ℚ) : ℚ :=
  round2 (max 0 (min 60 (tempStepRaw t heater fan noise)))

/-- Modelled from the spec (section 4.4): the temperature update the spec
describes, in which the heater and fan effects are independent `if`s and
both apply additively when both flags are true.  Used only to compare
with the source's `tempStep`, whose fan effect sits behind `elif`. -/
def specTempStepAdditive (t : ℚ) (heater fan : Bool) (noise : ℚ) : ℚ :=
  let ta := if heater then t + 0.5 * DT else t
  let tb := if fan then ta - 0.4 * DT else ta
  round2 (max 0 (min 60 (tb - (tb - 20) * 0.05 * DT + noise * DT)))

/-- Part A of the `simular` loop body (source lines 144-176): in
automatic mode, run the PID, apply PWM to heater and fan, advance the PWM
counter, and run the two-threshold pump logic; in manual mode, leave the
state untouched. -/
def controlStep (s : GState) : GState :=
  if s.modo_auto then
    let pid := calcular_pid s.temperatura s.pid_integral s.pid_last_error
    let pid_out := pid.1
    let hv := pwmApply pid_out s.pwm_counter
    let pump' :=
      if s.soil_moisture < SOIL_LOW ∧ s.pump = false then
        (if s.pump_run_seconds < MAX_PUMP_SECONDS then true else s.pump)
      else if SOIL_HIGH ≤ s.soil_moisture ∧ s.pump = true then false
      else s.pump
    { s with
      pid_output := round2 pid_out
      pid_integral := pid.2.1
      pid_last_error := pid.2.2
      aquecedor := hv.1
      ventilador := hv.2
      pwm_counter := (s.pwm_counter + 1) % PWM_PERIOD_TICKS
      pump := pump' }
  else s

/-- Parts B and C of the `simular` loop body (source lines 181-234): the
physics of temperature, soil moisture and air humidity, followed by the
alarm evaluation.  `nT` and `nH` are the tick's two
`random.uniform` draws (temperature noise in `[-0.05, 0.05]`, humidity
noise in `[-0.1, 0.1]`). -/
def physicsStep (s : GState) (nT nH : ℚ) : GState :=
  let temp' := tempStep s.temperatura s.aquecedor s.ventilador nT
  let evaporation_rate := EVAP_BASE + temp' * SOIL_EVAP_FACTOR
  let water_evaporated := evaporation_rate * DT
  let soil1 := s.soil_moisture - water_evaporated
  let soil2 := if s.pump then soil1 + PUMP_RATE * DT else soil1
  let prs' := if s.pump then s.pump_run_seconds + 1 else 0
  let soil' := round2 (max 0 (min 100 soil2))
  let hum1 := s.umidade - (temp' * AIR_DRYING_FACTOR) * DT
  let hum2 := hum1 + water_evaporated * SOIL_TO_AIR_TRANSFER
  let hum3 := hum2 + 0.05 * DT + nH * DT
  let hum' := round2 (max 10 (min 100 hum3))
  let alarm' :=
    if temp' < 18 then "🚨 Temp Baixa!"
    else if 35 < temp' then "🚨 Temp Alta!"
    else if soil' < 20 then "🚨 Solo Seco!"
    else ""
  { s with
    temperatura := temp'
    soil_moisture := soil'
    pump_run_seconds := prs'
    umidade := hum'
    alarm := alarm' }

/-- One full iteration of the `simular` while-loop: control phase, then
physics and alarms. -/
def simular_tick (s : GState) (nT nH : ℚ) : GState :=
  physicsStep (controlStep s) nT nH

/-- A parsed `/comando` JSON body: each actuator field is optionally
present, and `reset_alarm` records mere presence of that key (the source
tests `"reset_alarm" in cmd`, ignoring the value). -/
structure Cmd where
  aquecedor : Option Bool := none
  ventilador : Option Bool := none
  pump : Option Bool := none
  modo_auto : Option Bool := none
  reset_alarm : Bool := false
  deriving DecidableEq, Repr

/-- Source lines 260-262: an `aquecedor` field sets the heater and forces
manual mode. -/
def applyAquecedor (s : GState) (c : Cmd) : GState :=
  match c.aquecedor with
  | some b => { s with aquecedor := b, modo_auto := false }
  | none => s

/-- Source lines 263-265: a `ventilador` field sets the fan and forces
manual mode. -/
def applyVentilador (s : GState) (c : Cmd) : GState :=
  match c.ventilador with
  | some b => { s with ventilador := b, modo_auto := false }
  | none => s

/-- Source lines 266-269: a `pump` field sets the pump, zeroes
`pump_run_seconds` when the pump is being switched off, and forces manual
mode. -/
def applyPump (s : GState) (c : Cmd) : GState :=
  match c.pump with
  | some b =>
      let s' := { s with pump := b, modo_auto := false }
      if b then s' else { s' with pump_run_seconds := 0 }
  | none => s

/-- Source lines 272-278: a `modo_auto` field sets the mode and, whenever
the new value is true, zeroes the PID accumulator and last error. -/
def applyModoAuto (s : GState) (c : Cmd) : GState :=
  match c.modo_auto with
  | some b =>
      let s' := { s with modo_auto := b }
      if b then { s' with pid_integral := 0, pid_last_error := 0 } else s'
  | none => s

/-- Source lines 281-282: a `reset_alarm` key clears the alarm text. -/
def applyResetAlarm (s : GState) (c : Cmd) : GState :=
  if c.reset_alarm then { s with alarm := "" } else s

/-- The `/comando` handler `comando`, applying the optional fields in the
source's order. -/
def comando (s : GState) (c : Cmd) : GState :=
  applyResetAlarm (applyModoAuto (applyPump (applyVentilador (applyAquecedor s c) c) c) c) c

/-- An observable step of the running program: one tick of the `simular`
thread, or one external `/comando` request. -/
inductive Event where
  | tick (nT nH : ℚ)
  | cmd (c : Cmd)
  deriving DecidableEq, Repr

/-- Whether an event is a tick of the simulation loop. -/
def Event.isTick : Event → Bool
  | .tick _ _ => true
  | .cmd _ => false

/-- The state transition of one event. -/
def stepEv (s : GState) (e : Event) : GState :=
  match e with
  | .tick nT nH => simular_tick s nT nH
  | .cmd c => comando s c

/-- Running a sequence of events from a state. -/
def runEvents (s : GState) (es : List Event) : GState :=
  es.foldl stepEv s

/-- Predicate "the pump has been off for at least one full tick" at the instant
after `es` has run from `s0`: the trace contains a tick, and from the
state right after its most recent tick (whose physics phase hence saw the
pump off) through every later instant the pump flag is false. -/
def pumpOffLastFullTick (s0 : GState) (es : List Event) : Prop :=
  ∃ pre nT nH post,
    es = pre ++ Event.tick nT nH :: post ∧
    (∀ e ∈ post, e.isTick = false) ∧
    (∀ t ∈ List.scanl stepEv (runEvents s0 (pre ++ [Event.tick nT nH])) post,
      t.pump = false)

/-- A reachable state for claim C1: automatic mode, pump already running
with `pump_run_seconds` at the maximum, soil still below `SOIL_LOW`
(reachable by running the pump manually for 600 ticks and then re-enabling
automatic mode). -/
def sC1 : GState :=
  { temperatura := 25
    umidade := 60
    soil_moisture := 30
    aquecedor := false
    ventilador := false
    pump := true
    pump_run_seconds := 600
    modo_auto := true
    alarm := ""
    pid_output := 0
    setpoint := 25
    pid_integral := 0
    pid_last_error := 0
    pwm_counter := 0 }

/-- A manual-mode state for claim C6 whose temperature update produces
more than two decimal places. -/
def sC6 : GState := { initState with temperatura := 25.11, modo_auto := false }

/-- A manual-mode state for claim C7 with the PWM counter at 3. -/
def sC7 : GState := { initState with modo_auto := false, pwm_counter := 3 }

/-- A state for claim C8 that is already in automatic mode with nonzero
PID accumulators. -/
def sC8 : GState := { initState with pid_integral := 7, pid_last_error := 3 }

/-- A manual-mode state for claim C10 with a hot greenhouse, where the
tick's temperature drop is large enough to distinguish the old and the
new temperature in the evaporation term. -/
def sC10 : GState := { initState with temperatura := 60, modo_auto := false }

/-- Command that turns automatic mode on. -/
def cmdAutoTrue : Cmd := { modo_auto := some true }

/-- Command that turns the heater on manually. -/
def cmdHeater : Cmd := { aquecedor := some true }

/-- Command that turns the pump on manually. -/
def cmdPumpOn : Cmd := { pump := some true }

/-- Command that turns the pump off manually. -/
def cmdPumpOff : Cmd := { pump := some false }

/-- The event trace used against claim C9: one automatic tick, a manual
pump-on command, one tick with the pump running, then a pump-off
command. -/
def esC9 : List Event :=
  [Event.tick 0 0, Event.cmd cmdPumpOn, Event.tick 0 0, Event.cmd cmdPumpOff]

/-! ### Helper lemmas -/

lemma round2_eval (x : ℚ) (k : ℤ) (h1 : (k : ℚ) ≤ x * 100 + 1/2)
    (h2 : x * 100 + 1/2 < (k : ℚ) + 1) : round2 x = (k : ℚ) / 100 := by
  have h : ⌊x * 100 + 1/2⌋ = k := by
    rw [Int.floor_eq_iff]
    · exact ⟨h1, by exact_mod_cast h2⟩
  rw [round2, h]

lemma round2_shape (x : ℚ) : ∃ k : ℤ, round2 x = (k : ℚ) / 100 :=
  ⟨⌊x * 100 + 1/2⌋, rfl⟩

lemma le_round2_of_le (x : ℚ) (a : ℤ) (h : (a : ℚ) / 100 ≤ x) :
    (a : ℚ) / 100 ≤ round2 x := by
  unfold round2
  have hf : a ≤ ⌊x * 100 + 1/2⌋ := by
    apply Int.le_floor.mpr
    have : (a : ℚ) ≤ x * 100 := by linarith [(div_le_iff₀ (by norm_num : (0:ℚ) < 100)).mp h]
    linarith
  gcongr

lemma round2_le_of_le (x : ℚ) (b : ℤ) (h : x ≤ (b : ℚ) / 100) :
    round2 x ≤ (b : ℚ) / 100 := by
  unfold round2
  have hf : ⌊x * 100 + 1/2⌋ ≤ b := by
    have hx : x * 100 ≤ (b : ℚ) := by linarith [(le_div_iff₀ (by norm_num : (0:ℚ) < 100)).mp h]
    have h1 : x * 100 + 1/2 < (b : ℚ) + 1 := by linarith
    exact Int.le_of_lt_add_one (Int.floor_lt.mpr (by exact_mod_cast h1))
  gcongr

lemma round2_clamp_0_60 (x : ℚ) :
    0 ≤ round2 (max 0 (min 60 x)) ∧ round2 (max 0 (min 60 x)) ≤ 60 := by
  constructor
  · have h := le_round2_of_le (max 0 (min 60 x)) 0 (by norm_num [le_max_iff])
    norm_num at h
    exact h
  · have h := round2_le_of_le (max 0 (min 60 x)) 6000 (by norm_num [max_le_iff, min_le_iff])
    norm_num at h
    exact h

lemma round2_clamp_0_100 (x : ℚ) :
    0 ≤ round2 (max 0 (min 100 x)) ∧ round2 (max 0 (min 100 x)) ≤ 100 := by
  constructor
  · have h := le_round2_of_le (max 0 (min 100 x)) 0 (by norm_num [le_max_iff])
    norm_num at h
    exact h
  · have h := round2_le_of_le (max 0 (min 100 x)) 10000 (by norm_num [max_le_iff, min_le_iff])
    norm_num at h
    exact h

lemma round2_clamp_10_100 (x : ℚ) :
    10 ≤ round2 (max 10 (min 100 x)) ∧ round2 (max 10 (min 100 x)) ≤ 100 := by
  constructor
  · have h := le_round2_of_le (max 10 (min 100 x)) 1000 (by norm_num [le_max_iff])
    norm_num at h
    exact h
  · have h := round2_le_of_le (max 10 (min 100 x)) 10000 (by norm_num [max_le_iff, min_le_iff])
    norm_num at h
    exact h

lemma physicsStep_temperatura (s : GState) (nT nH : ℚ) :
    (physicsStep s nT nH).temperatura
      = tempStep s.temperatura s.aquecedor s.ventilador nT := rfl

lemma physicsStep_soil (s : GState) (nT nH : ℚ) :
    (physicsStep s nT nH).soil_moisture
      = round2 (max 0 (min 100
          (if s.pump then
            s.soil_moisture
              - (EVAP_BASE + tempStep s.temperatura s.aquecedor s.ventilador nT * SOIL_EVAP_FACTOR) * DT
              + PUMP_RATE * DT
          else
            s.soil_moisture
              - (EVAP_BASE + tempStep s.temperatura s.aquecedor s.ventilador nT * SOIL_EVAP_FACTOR) * DT))) := by
  unfold physicsStep
  rcases s.pump <;> rfl

lemma physicsStep_umidade (s : GState) (nT nH : ℚ) :
    (physicsStep s nT nH).umidade
      = round2 (max 10 (min 100
          (s.umidade
            - (tempStep s.temperatura s.aquecedor s.ventilador nT * AIR_DRYING_FACTOR) * DT
            + (EVAP_BASE + tempStep s.temperatura s.aquecedor s.ventilador nT * SOIL_EVAP_FACTOR) * DT
                * SOIL_TO_AIR_TRANSFER
            + 0.05 * DT + nH * DT))) := rfl

lemma physicsStep_pump (s : GState) (nT nH : ℚ) :
    (physicsStep s nT nH).pump = s.pump := rfl

lemma physicsStep_prs (s : GState) (nT nH : ℚ) :
    (physicsStep s nT nH).pump_run_seconds
      = if s.pump then s.pump_run_seconds + 1 else 0 := rfl

lemma physicsStep_modo (s : GState) (nT nH : ℚ) :
    (physicsStep s nT nH).modo_auto = s.modo_auto := rfl

lemma physicsStep_pwm (s : GState) (nT nH : ℚ) :
    (physicsStep s nT nH).pwm_counter = s.pwm_counter := rfl

lemma controlStep_of_manual (s : GState) (h : s.modo_auto = false) :
    controlStep s = s := by
  simp [controlStep, h]

lemma controlStep_temperatura (s : GState) :
    (controlStep s).temperatura = s.temperatura := by
  unfold controlStep
  split <;> rfl

lemma controlStep_umidade (s : GState) :
    (controlStep s).umidade = s.umidade := by
  unfold controlStep
  split <;> rfl

lemma controlStep_soil (s : GState) :
    (controlStep s).soil_moisture = s.soil_moisture := by
  unfold controlStep
  split <;> rfl

lemma controlStep_prs (s : GState) :
    (controlStep s).pump_run_seconds = s.pump_run_seconds := by
  unfold controlStep
  split <;> rfl

lemma controlStep_pwm (s : GState) :
    (controlStep s).pwm_counter
      = if s.modo_auto then (s.pwm_counter + 1) % PWM_PERIOD_TICKS else s.pwm_counter := by
  unfold controlStep
  rcases h : s.modo_auto <;> simp [h]

/-! ### Claim theorems -/

/-- C2: for every current temperature, persisted integral accumulator and
last error, and `dt > 0`, one PID evaluation computes
`error = setpoint - currentTemp`, adds `error * dt` to the integral and
clamps the integral to `[-50, 50]`, computes
`derivative = (error - lastError) / dt`, returns
`Kp*error + Ki*integral + Kd*derivative` with `Kp = 10.0`, `Ki = 0.2`,
`Kd = 5.0`, and sets the stored last error to `error`. -/
theorem C2_calcular_pid_spec (t i l dt : ℚ) (hdt : 0 < dt) :
    calcular_pid_dt dt t i l =
      (10 * (25 - t) + 0.2 * min (max (i + (25 - t) * dt) (-50)) 50
          + 5 * ((25 - t - l) / dt),
        min (max (i + (25 - t) * dt) (-50)) 50,
        25 - t)
    ∧ -50 ≤ (calcular_pid_dt dt t i l).2.1
    ∧ (calcular_pid_dt dt t i l).2.1 ≤ 50 := by
  have hclamp : max (min (i + (25 - t) * dt) 50) (-50)
      = min (max (i + (25 - t) * dt) (-50)) 50 := by
    rcases le_total (i + (25 - t) * dt) 50 with h | h <;>
      rcases le_total (i + (25 - t) * dt) (-50) with h' | h' <;>
      simp [min_def, max_def, *] <;> linarith
  refine ⟨?_, ?_, ?_⟩
  · simp only [calcular_pid_dt, SETPOINT_TEMP, Kp, Ki, Kd]
    rw [hclamp]
  · simp only [calcular_pid_dt, SETPOINT_TEMP]
    exact le_max_right _ _
  · simp only [calcular_pid_dt, SETPOINT_TEMP]
    exact max_le (min_le_right _ _) (by norm_num)

/-- Witness for C2 at `dt = 1`, `temp = 30`, zero accumulators. -/
theorem C2_calcular_pid_spec_witness :
    (0:ℚ) < 1 ∧
    calcular_pid_dt 1 30 0 0 =
      (10 * (25 - 30) + 0.2 * min (max (0 + (25 - 30) * 1) (-50)) 50
          + 5 * ((25 - 30 - 0) / 1),
        min (max (0 + (25 - 30) * 1) (-50)) 50,
        25 - 30) :=
  ⟨by norm_num, (C2_calcular_pid_spec 30 0 0 1 (by norm_num)).1⟩

/-- C3: for every starting state and all noise draws in their bounded
ranges, after one tick of the loop the stored temperature lies in
`[0, 60]`, the stored humidity in `[10, 100]` and the stored soil
moisture in `[0, 100]`. -/
theorem C3_state_bounds (s : GState) (nT nH : ℚ)
    (h1 : -(1/20) ≤ nT) (h2 : nT ≤ 1/20) (h3 : -(1/10) ≤ nH) (h4 : nH ≤ 1/10) :
    (0 ≤ (simular_tick s nT nH).temperatura ∧ (simular_tick s nT nH).temperatura ≤ 60)
    ∧ (10 ≤ (simular_tick s nT nH).umidade ∧ (simular_tick s nT nH).umidade ≤ 100)
    ∧ (0 ≤ (simular_tick s nT nH).soil_moisture ∧ (simular_tick s nT nH).soil_moisture ≤ 100) := by
  rw [simular_tick]
  refine ⟨?_, ?_, ?_⟩
  · rw [physicsStep_temperatura]
    unfold tempStep
    exact round2_clamp_0_60 _
  · rw [physicsStep_umidade]
    exact round2_clamp_10_100 _
  · rw [physicsStep_soil]
    exact round2_clamp_0_100 _

/-- Witness for C3 at the initial state with zero noise. -/
theorem C3_state_bounds_witness :
    (-(1/20) ≤ (0:ℚ) ∧ (0:ℚ) ≤ 1/20 ∧ -(1/10) ≤ (0:ℚ) ∧ (0:ℚ) ≤ 1/10)
    ∧ ((0 ≤ (simular_tick initState 0 0).temperatura ∧ (simular_tick initState 0 0).temperatura ≤ 60)
        ∧ (10 ≤ (simular_tick initState 0 0).umidade ∧ (simular_tick initState 0 0).umidade ≤ 100)
        ∧ (0 ≤ (simular_tick initState 0 0).soil_moisture ∧ (simular_tick initState 0 0).soil_moisture ≤ 100)) :=
  ⟨by norm_num,
    C3_state_bounds initState 0 0 (by norm_num) (by norm_num) (by norm_num) (by norm_num)⟩

/-- C5 counterexample: with heater and fan both true (possible only under
manual commands), the source's `elif` applies only the heater effect, not
both effects additively: from 25.3 degrees the code yields 25.51 while
the claimed additive update yields 25.13. -/
theorem C5_counterexample :
    tempStep 25.3 true true 0 = 25.51
    ∧ specTempStepAdditive 25.3 true true 0 = 25.13
    ∧ tempStep 25.3 true true 0 ≠ specTempStepAdditive 25.3 true true 0 := by
  have hcode : tempStep 25.3 true true 0 = 25.51 := by
    have h : tempStep 25.3 true true 0 = round2 (2551/100) := by
      unfold tempStep tempStepRaw
      norm_num [DT, min_def, max_def]
    rw [h]
    exact (round2_eval (2551/100) 2551 (by norm_num) (by norm_num)).trans (by norm_num)
  have hspec : specTempStepAdditive 25.3 true true 0 = 25.13 := by
    have h : specTempStepAdditive 25.3 true true 0 = round2 (2513/100) := by
      unfold specTempStepAdditive
      norm_num [DT, min_def, max_def]
    rw [h]
    exact (round2_eval (2513/100) 2513 (by norm_num) (by norm_num)).trans (by norm_num)
  refine ⟨hcode, hspec, ?_⟩
  rw [hcode, hspec]
  norm_num

/-- C5 amended: in the physical model's temperature update the heater
branch takes precedence (`elif`): when both flags are true only the
heater effect applies, so the update with both flags true equals the
update with the heater alone. -/
theorem C5_amended (t n : ℚ) :
    tempStep t true true n = tempStep t true false n := rfl

/-- C6 counterexample: the physics of a tick stores the rounded, clamped
temperature into the shared state, and that stored value is what the next
tick's physics reads; at 25.11 degrees the unrounded result of the tick
is 24.8545, but the stored value the next tick reads is 24.85. -/
theorem C6_counterexample :
    tempStepRaw sC6.temperatura sC6.aquecedor sC6.ventilador 0 = 24.8545
    ∧ (simular_tick sC6 0 0).temperatura = 24.85
    ∧ (simular_tick sC6 0 0).temperatura
        ≠ tempStepRaw sC6.temperatura sC6.aquecedor sC6.ventilador 0 := by
  have hraw : tempStepRaw sC6.temperatura sC6.aquecedor sC6.ventilador 0 = 24.8545 := by
    norm_num [tempStepRaw, DT, sC6, initState]
  have hstored : (simular_tick sC6 0 0).temperatura = 24.85 := by
    rw [simular_tick, controlStep_of_manual sC6 rfl, physicsStep_temperatura]
    have h : tempStep sC6.temperatura sC6.aquecedor sC6.ventilador 0 = round2 (2485.45/100) := by
      unfold tempStep tempStepRaw
      norm_num [DT, min_def, max_def, sC6, initState]
    rw [h]
    exact (round2_eval (2485.45/100) 2485 (by norm_num) (by norm_num)).trans (by norm_num)
  refine ⟨hraw, hstored, ?_⟩
  rw [hraw, hstored]
  norm_num

/-- C6 amended: every externally stored sensor value is the rounded,
clamped result of the tick — an integer number of hundredths — and the
next tick's physics reads exactly these stored rounded values, there
being no separate unrounded accumulator. -/
theorem C6_amended (s : GState) (nT nH : ℚ) :
    ∃ a b c : ℤ,
      (simular_tick s nT nH).temperatura = (a : ℚ) / 100
      ∧ (simular_tick s nT nH).soil_moisture = (b : ℚ) / 100
      ∧ (simular_tick s nT nH).umidade = (c : ℚ) / 100 := by
  rw [simular_tick]
  obtain ⟨a, ha⟩ := round2_shape (max 0 (min 60 (tempStepRaw (controlStep s).temperatura
    (controlStep s).aquecedor (controlStep s).ventilador nT)))
  obtain ⟨b, hb⟩ := round2_shape (max 0 (min 100
    (if (controlStep s).pump then
      (controlStep s).soil_moisture
        - (EVAP_BASE + tempStep (controlStep s).temperatura (controlStep s).aquecedor
            (controlStep s).ventilador nT * SOIL_EVAP_FACTOR) * DT
        + PUMP_RATE * DT
    else
      (controlStep s).soil_moisture
        - (EVAP_BASE + tempStep (controlStep s).temperatura (controlStep s).aquecedor
            (controlStep s).ventilador nT * SOIL_EVAP_FACTOR) * DT)))
  obtain ⟨c, hc⟩ := round2_shape (max 10 (min 100
    ((controlStep s).umidade
      - (tempStep (controlStep s).temperatura (controlStep s).aquecedor
          (controlStep s).ventilador nT * AIR_DRYING_FACTOR) * DT
      + (EVAP_BASE + tempStep (controlStep s).temperatura (controlStep s).aquecedor
          (controlStep s).ventilador nT * SOIL_EVAP_FACTOR) * DT * SOIL_TO_AIR_TRANSFER
      + 0.05 * DT + nH * DT)))
  refine ⟨a, b, c, ?_, ?_, ?_⟩
  · rw [physicsStep_temperatura]
    exact ha
  · rw [physicsStep_soil]
    exact hb
  · rw [physicsStep_umidade]
    exact hc

/-- C7 counterexample: in manual mode the tick leaves the PWM cycle
counter unchanged (the increment sits inside the automatic-mode branch),
so from counter 3 a manual tick keeps 3 instead of advancing to 4. -/
theorem C7_counterexample :
    (simular_tick sC7 0 0).pwm_counter = 3
    ∧ (simular_tick sC7 0 0).pwm_counter ≠ (sC7.pwm_counter + 1) % PWM_PERIOD_TICKS := by
  have h : (simular_tick sC7 0 0).pwm_counter = 3 := by
    rw [simular_tick, controlStep_of_manual sC7 rfl, physicsStep_pwm]
    rfl
  refine ⟨h, ?_⟩
  rw [h]
  decide

/-- C7 amended: the PWM cycle counter advances by one modulo the cycle
period only on automatic-mode ticks; a manual-mode tick leaves it
unchanged. -/
theorem C7_amended (s : GState) (nT nH : ℚ) :
    (simular_tick s nT nH).pwm_counter
      = if s.modo_auto then (s.pwm_counter + 1) % PWM_PERIOD_TICKS else s.pwm_counter := by
  rw [simular_tick, physicsStep_pwm, controlStep_pwm]

/-- C1 (code_bug evidence): at a reachable automatic-mode state with the
pump on, `pump_run_seconds` already at `MAX_PUMP_SECONDS` and soil still
below `SOIL_LOW`, the tick does not force the pump off: the pump stays on
and the counter advances past the maximum.  The guard
`pump_run_seconds < MAX_PUMP_SECONDS` only blocks turn-on of an off pump;
no branch ever turns a running pump off on reaching the maximum, although
the source's own comment on `MAX_PUMP_SECONDS` says the pump is switched
off after 10 minutes. -/
theorem C1_no_safety_cutoff :
    sC1.modo_auto = true ∧ sC1.pump_run_seconds = MAX_PUMP_SECONDS
    ∧ sC1.soil_moisture < SOIL_LOW
    ∧ (simular_tick sC1 0 0).pump = true
    ∧ (simular_tick sC1 0 0).pump_run_seconds = MAX_PUMP_SECONDS + 1 := by
  have hpump : (controlStep sC1).pump = true := by
    norm_num [controlStep, sC1, SOIL_LOW, SOIL_HIGH, MAX_PUMP_SECONDS]
  have hprs : (simular_tick sC1 0 0).pump_run_seconds = MAX_PUMP_SECONDS + 1 := by
    rw [simular_tick, physicsStep_prs, hpump, controlStep_prs]
    norm_num [sC1, MAX_PUMP_SECONDS]
  refine ⟨rfl, rfl, by norm_num [sC1, SOIL_LOW], ?_, hprs⟩
  rw [simular_tick, physicsStep_pump]
  exact hpump

/-- C8 counterexample: a command that sets `modo_auto` to true zeroes the
PID accumulators even when automatic mode was already enabled, so the
reset does not happen exactly on the disabled-to-enabled transition. -/
theorem C8_counterexample :
    sC8.modo_auto = true ∧ sC8.pid_integral = 7 ∧ sC8.pid_last_error = 3
    ∧ (comando sC8 cmdAutoTrue).pid_integral = 0
    ∧ (comando sC8 cmdAutoTrue).pid_last_error = 0
    ∧ (comando sC8 cmdAutoTrue).pid_integral ≠ sC8.pid_integral := by
  refine ⟨rfl, rfl, rfl, rfl, rfl, ?_⟩
  intro h
  have h7 : (7:ℚ) = 0 := by
    calc (7:ℚ) = sC8.pid_integral := rfl
    _ = (comando sC8 cmdAutoTrue).pid_integral := h.symm
    _ = 0 := rfl
  norm_num at h7

/-- C8 amended: for every incoming external command, setting any of the
heater, fan, or pump fields (with no `modo_auto` field in the same
command) forces `autoMode` to false; setting the pump field to false also
resets `pump_run_seconds` to 0; and the PID accumulator and last error
are zeroed exactly when the command sets `autoMode` to true — whether or
not automatic mode was already enabled — and are untouched otherwise. -/
theorem C8_amended (s : GState) (c : Cmd) :
    (c.modo_auto = none →
      (c.aquecedor ≠ none ∨ c.ventilador ≠ none ∨ c.pump ≠ none) →
      (comando s c).modo_auto = false)
    ∧ (c.pump = some false → (comando s c).pump_run_seconds = 0)
    ∧ (c.modo_auto = some true →
        (comando s c).pid_integral = 0 ∧ (comando s c).pid_last_error = 0)
    ∧ (c.modo_auto = some false →
        (comando s c).pid_integral = s.pid_integral
        ∧ (comando s c).pid_last_error = s.pid_last_error)
    ∧ (c.modo_auto = none →
        (comando s c).pid_integral = s.pid_integral
        ∧ (comando s c).pid_last_error = s.pid_last_error) := by
  obtain ⟨oa, ov, op, om, ra⟩ := c
  refine ⟨?_, ?_, ?_, ?_, ?_⟩ <;>
    rcases om with _ | m <;> (try rcases m) <;>
    rcases op with _ | p <;> (try rcases p) <;>
    rcases ov with _ | v <;> rcases oa with _ | a <;>
    simp [comando, applyAquecedor, applyVentilador, applyPump, applyModoAuto,
      applyResetAlarm, apply_ite]

/-- Witness for C8 amended: a heater command forces manual mode, a
pump-off command zeroes the run counter, and an auto-on command zeroes
the PID accumulators. -/
theorem C8_amended_witness :
    (comando initState cmdHeater).modo_auto = false
    ∧ (comando initState cmdPumpOff).pump_run_seconds = 0
    ∧ (comando sC8 cmdAutoTrue).pid_integral = 0
    ∧ (comando sC8 cmdAutoTrue).pid_last_error = 0 :=
  ⟨(C8_amended initState cmdHeater).1 rfl (Or.inl (by simp [cmdHeater])),
    (C8_amended initState cmdPumpOff).2.1 rfl,
    ((C8_amended sC8 cmdAutoTrue).2.2.1 rfl).1,
    ((C8_amended sC8 cmdAutoTrue).2.2.1 rfl).2⟩

/-- C9 amended: after every tick, `pump_run_seconds` is zero exactly when
the pump was off during that tick's physics phase (equivalently, is off
in the resulting state); an external command between ticks can break the
correspondence until the next tick, as `C9_counterexample` shows. -/
theorem C9_amended (s : GState) (nT nH : ℚ) :
    ((simular_tick s nT nH).pump_run_seconds = 0 ↔ (simular_tick s nT nH).pump = false) := by
  rw [simular_tick, physicsStep_prs, physicsStep_pump]
  rcases h : (controlStep s).pump <;> simp [h]

/-- C10: within a single tick, the soil-evaporation rate and the air
drying term are computed from the temperature already updated, clamped
and rounded by that same tick's temperature step (the `temperatura` field
of the tick's result), not from the temperature the tick started with —
and there is a concrete state on which the two choices give different
stored soil moisture. -/
theorem C10_terms_use_updated_temperature (s : GState) (nT nH : ℚ) :
    ((simular_tick s nT nH).soil_moisture =
      round2 (max 0 (min 100 (s.soil_moisture
        - (EVAP_BASE + (simular_tick s nT nH).temperatura * SOIL_EVAP_FACTOR) * DT
        + (if (simular_tick s nT nH).pump = true then PUMP_RATE * DT else 0)))))
    ∧ ((simular_tick s nT nH).umidade =
      round2 (max 10 (min 100 (s.umidade
        - ((simular_tick s nT nH).temperatura * AIR_DRYING_FACTOR) * DT
        + (EVAP_BASE + (simular_tick s nT nH).temperatura * SOIL_EVAP_FACTOR) * DT
            * SOIL_TO_AIR_TRANSFER
        + 0.05 * DT + nH * DT))))
    ∧ (∃ u : GState, ∃ a b : ℚ, (simular_tick u a b).soil_moisture ≠
        round2 (max 0 (min 100 (u.soil_moisture
          - (EVAP_BASE + u.temperatura * SOIL_EVAP_FACTOR) * DT
          + (if (simular_tick u a b).pump = true then PUMP_RATE * DT else 0))))) := by
  have htemp10 : tempStep sC10.temperatura sC10.aquecedor sC10.ventilador 0 = 58 := by
    have h : tempStep sC10.temperatura sC10.aquecedor sC10.ventilador 0 = round2 (5800/100) := by
      unfold tempStep tempStepRaw
      norm_num [sC10, initState, DT, min_def, max_def]
    rw [h]
    exact (round2_eval (5800/100) 5800 (by norm_num) (by norm_num)).trans (by norm_num)
  have hpumpf : (simular_tick sC10 0 0).pump = false := by
    rw [simular_tick, physicsStep_pump, controlStep_of_manual sC10 rfl]
    rfl
  refine ⟨?_, ?_, ?_⟩
  · rw [simular_tick, physicsStep_soil, physicsStep_temperatura, physicsStep_pump,
      controlStep_soil]
    rcases hp : (controlStep s).pump <;> simp [hp]
  · rw [simular_tick, physicsStep_umidade, physicsStep_temperatura, controlStep_umidade]
  · refine ⟨sC10, 0, 0, ?_⟩
    have hL : (simular_tick sC10 0 0).soil_moisture = 4969/100 := by
      rw [simular_tick, controlStep_of_manual sC10 rfl, physicsStep_soil, htemp10]
      have harg : (max 0 (min 100
          (if sC10.pump then
            sC10.soil_moisture - (EVAP_BASE + 58 * SOIL_EVAP_FACTOR) * DT + PUMP_RATE * DT
          else
            sC10.soil_moisture - (EVAP_BASE + 58 * SOIL_EVAP_FACTOR) * DT))) = 4969/100 := by
        norm_num [sC10, initState, EVAP_BASE, SOIL_EVAP_FACTOR, DT, min_def, max_def]
      rw [harg]
      exact (round2_eval (4969/100) 4969 (by norm_num) (by norm_num)).trans (by norm_num)
    have hR : round2 (max 0 (min 100 (sC10.soil_moisture
        - (EVAP_BASE + sC10.temperatura * SOIL_EVAP_FACTOR) * DT
        + (if (simular_tick sC10 0 0).pump = true then PUMP_RATE * DT else 0)))) = 4968/100 := by
      rw [hpumpf]
      have harg : (max 0 (min 100 (sC10.soil_moisture
          - (EVAP_BASE + sC10.temperatura * SOIL_EVAP_FACTOR) * DT
          + (if (false : Bool) = true then PUMP_RATE * DT else 0)))) = 4968/100 := by
        norm_num [sC10, initState, EVAP_BASE, SOIL_EVAP_FACTOR, DT, min_def, max_def]
      rw [harg]
      exact (round2_eval (4968/100) 4968 (by norm_num) (by norm_num)).trans (by norm_num)
    rw [hL, hR]
    norm_num

/-- C4: for a constant positive PID signal `d ≤ 100` held over the full
cycle of 10 tick positions, the number of positions on which the heater
is active lies within one of `⌊10*d/100⌋`, the active positions are the
leading contiguous ones, the fan is never active for a positive signal,
a fan activation implies the signal is nonpositive, and heater and fan
are never both active at one position. -/
theorem C4_pwm_duty_cycle (d e : ℚ) (j k : ℕ) (h0 : 0 < d) (h1 : d ≤ 100) (hjk : j ≤ k) :
    (⌊10 * d / 100⌋ ≤ (((Finset.range 10).filter fun i => (pwmApply d i).1 = true).card : ℤ)
      ∧ (((Finset.range 10).filter fun i => (pwmApply d i).1 = true).card : ℤ)
          ≤ ⌊10 * d / 100⌋ + 1)
    ∧ ((pwmApply d k).1 = true → (pwmApply d j).1 = true)
    ∧ (pwmApply d k).2 = false
    ∧ ((pwmApply e k).2 = true → e ≤ 0)
    ∧ ¬((pwmApply e k).1 = true ∧ (pwmApply e k).2 = true) := by
  have hmin : min |d| 100 = d := by
    rw [abs_of_pos h0]
    exact min_eq_left h1
  have hact : ∀ i : ℕ, ((pwmApply d i).1 = true ↔ (i : ℚ) * 10 < d) := by
    intro i
    simp [pwmApply, hmin, h0]
  have hfil : ((Finset.range 10).filter fun i => (pwmApply d i).1 = true)
      = (Finset.range 10).filter fun i : ℕ => ((i : ℚ) * 10 < d) := by
    apply Finset.filter_congr
    intro i _
    simp [hact i]
  have hF0 : 0 ≤ ⌊d / 10⌋ := Int.floor_nonneg.mpr (by positivity)
  have hFle : ((⌊d / 10⌋ : ℤ) : ℚ) ≤ d / 10 := Int.floor_le _
  have hF10 : ⌊d / 10⌋ ≤ 10 := by
    have hd : d / 10 ≤ (10 : ℚ) := by linarith
    calc ⌊d / 10⌋ ≤ ⌊(10 : ℚ)⌋ := Int.floor_le_floor hd
    _ = 10 := by norm_num
  have hflooreq : ⌊10 * d / 100⌋ = ⌊d / 10⌋ := by
    congr 1
    ring
  have hsub1 : Finset.range (⌊d / 10⌋.toNat)
      ⊆ (Finset.range 10).filter fun i : ℕ => ((i : ℚ) * 10 < d) := by
    intro i hi
    rw [Finset.mem_range] at hi
    have hiF : (i : ℤ) < ⌊d / 10⌋ := by omega
    have hi10 : i < 10 := by omega
    rw [Finset.mem_filter, Finset.mem_range]
    refine ⟨hi10, ?_⟩
    have hq : (i : ℚ) + 1 ≤ ((⌊d / 10⌋ : ℤ) : ℚ) := by exact_mod_cast hiF
    have hlt : (i : ℚ) < d / 10 := by linarith
    calc (i : ℚ) * 10 < (d / 10) * 10 := by linarith
    _ = d := by ring
  have hsub2 : ((Finset.range 10).filter fun i : ℕ => ((i : ℚ) * 10 < d))
      ⊆ Finset.range (⌊d / 10⌋.toNat + 1) := by
    intro i hi
    rw [Finset.mem_filter, Finset.mem_range] at hi
    obtain ⟨hi10, hlt⟩ := hi
    have hle : (i : ℚ) ≤ d / 10 := by
      rw [le_div_iff₀ (by norm_num : (0:ℚ) < 10)]
      linarith
    have hiF : (i : ℤ) ≤ ⌊d / 10⌋ := Int.le_floor.mpr (by exact_mod_cast hle)
    rw [Finset.mem_range]
    omega
  refine ⟨⟨?_, ?_⟩, ?_, ?_, ?_, ?_⟩
  · rw [hflooreq, hfil]
    have hc := Finset.card_le_card hsub1
    rw [Finset.card_range] at hc
    omega
  · rw [hflooreq, hfil]
    have hc := Finset.card_le_card hsub2
    rw [Finset.card_range] at hc
    omega
  · intro hk
    rw [hact k] at hk
    rw [hact j]
    have hcast : (j : ℚ) ≤ (k : ℚ) := by exact_mod_cast hjk
    nlinarith
  · simp [pwmApply, h0]
  · intro hb
    by_contra hpos
    push_neg at hpos
    simp [pwmApply, hpos] at hb
  · rintro ⟨ha, hb⟩
    by_cases he : 0 < e <;> simp [pwmApply, he] at ha hb

/-- Witness for C4 at duty 35 percent (heater side) and signal -7 (fan
side), positions 1 and 2. -/
theorem C4_pwm_duty_cycle_witness :
    ((0:ℚ) < 35 ∧ (35:ℚ) ≤ 100 ∧ (1:ℕ) ≤ 2)
    ∧ ((⌊10 * (35:ℚ) / 100⌋
          ≤ (((Finset.range 10).filter fun i => (pwmApply 35 i).1 = true).card : ℤ)
        ∧ (((Finset.range 10).filter fun i => (pwmApply 35 i).1 = true).card : ℤ)
            ≤ ⌊10 * (35:ℚ) / 100⌋ + 1)
      ∧ ((pwmApply 35 2).1 = true → (pwmApply 35 1).1 = true)
      ∧ (pwmApply 35 2).2 = false
      ∧ ((pwmApply (-7) 2).2 = true → (-7:ℚ) ≤ 0)
      ∧ ¬((pwmApply (-7) 2).1 = true ∧ (pwmApply (-7) 2).2 = true)) :=
  ⟨⟨by norm_num, by norm_num, by norm_num⟩,
    C4_pwm_duty_cycle 35 (-7) 1 2 (by norm_num) (by norm_num) (by norm_num)⟩

lemma comando_pumpOff_prs (s : GState) : (comando s cmdPumpOff).pump_run_seconds = 0 := by
  simp [comando, applyAquecedor, applyVentilador, applyPump, applyModoAuto,
    applyResetAlarm, cmdPumpOff]

lemma comando_pumpOn_modo (s : GState) : (comando s cmdPumpOn).modo_auto = false := by
  simp [comando, applyAquecedor, applyVentilador, applyPump, applyModoAuto,
    applyResetAlarm, cmdPumpOn]

lemma comando_pumpOn_pump (s : GState) : (comando s cmdPumpOn).pump = true := by
  simp [comando, applyAquecedor, applyVentilador, applyPump, applyModoAuto,
    applyResetAlarm, cmdPumpOn]

/-- C9 counterexample: along the program trace "automatic tick, manual
pump-on, tick, manual pump-off" the observable instant after the final
command has `pump_run_seconds = 0` although the pump ran during the whole
preceding tick, so it is not true that at every observable instant the
counter is zero exactly when the pump has been off for at least one full
tick. -/
theorem C9_counterexample :
    ¬ (∀ es : List Event,
        ((runEvents initState es).pump_run_seconds = 0 ↔ pumpOffLastFullTick initState es)) := by
  intro h
  have h0 : (runEvents initState esC9).pump_run_seconds = 0 := by
    have hr : runEvents initState esC9
        = comando (simular_tick (comando (simular_tick initState 0 0) cmdPumpOn) 0 0)
            cmdPumpOff := rfl
    rw [hr, comando_pumpOff_prs]
  obtain ⟨pre, nT, nH, post, heq, hpost, hall⟩ := (h esC9).mp h0
  rcases pre with _ | ⟨e1, pre⟩
  · simp only [esC9, List.nil_append] at heq
    obtain ⟨h1, h2⟩ := List.cons.inj heq
    have hmem : Event.tick 0 0 ∈ post := by
      rw [← h2]
      simp
    have hbad := hpost _ hmem
    simp [Event.isTick] at hbad
  · rcases pre with _ | ⟨e2, pre⟩
    · simp only [esC9, List.cons_append, List.nil_append] at heq
      obtain ⟨h1, heq⟩ := List.cons.inj heq
      obtain ⟨h2, h3⟩ := List.cons.inj heq
      exact absurd h2 (by simp)
    · rcases pre with _ | ⟨e3, pre⟩
      · simp only [esC9, List.cons_append, List.nil_append] at heq
        obtain ⟨h1, heq⟩ := List.cons.inj heq
        obtain ⟨h2, heq⟩ := List.cons.inj heq
        obtain ⟨h3, h4⟩ := List.cons.inj heq
        injection h3 with hnT hnH
        subst h1
        subst h2
        subst hnT
        subst hnH
        subst h4
        simp only [List.cons_append, List.nil_append] at hall
        have hs2m : (comando (simular_tick initState 0 0) cmdPumpOn).modo_auto = false :=
          comando_pumpOn_modo _
        have hpump : (runEvents initState
            [Event.tick 0 0, Event.cmd cmdPumpOn, Event.tick 0 0]).pump = true := by
          show (simular_tick (comando (simular_tick initState 0 0) cmdPumpOn) 0 0).pump = true
          rw [simular_tick, physicsStep_pump, controlStep_of_manual _ hs2m]
          exact comando_pumpOn_pump _
        have hmem : (runEvents initState [Event.tick 0 0, Event.cmd cmdPumpOn, Event.tick 0 0])
            ∈ List.scanl stepEv
              (runEvents initState [Event.tick 0 0, Event.cmd cmdPumpOn, Event.tick 0 0])
              [Event.cmd cmdPumpOff] := by
          simp [List.scanl]
        have hbad := hall _ hmem
        rw [hpump] at hbad
        exact absurd hbad (by simp)
      · rcases pre with _ | ⟨e4, pre⟩
        · simp only [esC9, List.cons_append, List.nil_append] at heq
          obtain ⟨h1, heq⟩ := List.cons.inj heq
          obtain ⟨h2, heq⟩ := List.cons.inj heq
          obtain ⟨h3, heq⟩ := List.cons.inj heq
          obtain ⟨h4, h5⟩ := List.cons.inj heq
          exact absurd h4 (by simp)
        · simp only [esC9, List.cons_append] at heq
          obtain ⟨h1, heq⟩ := List.cons.inj heq
          obtain ⟨h2, heq⟩ := List.cons.inj heq
          obtain ⟨h3, heq⟩ := List.cons.inj heq
          obtain ⟨h4, heq⟩ := List.cons.inj heq
          exact absurd heq (by simp)
